import Mathlib

/-!
Verification of the `none`-cipher SSH transport extension
(`none_cipher_transport.py`, `ssh_client.py`, `ssh_server.py`).

The activation overrides `_activate_inbound` / `_activate_outbound` are
embedded as pure functions from a transport state to the list of observable
actions (key-derivation calls, packetizer configuration, compression setup,
sequence-number resets, NEWKEYS / EXT_INFO messages) that the Python code
performs, in the order it performs them.  The parent class's standard
activation paths live in the external library, not in this repository's
sources; they are modelled from the specification where a claim needs them.
-/

set_option linter.unusedVariables false

namespace NoneCipher

/-- Substring test on character lists: Python's `pat in s` for strings.
`startsWithChars pat l` holds when `pat` is an initial segment of `l`. -/
def startsWithChars : List Char → List Char → Bool
  | [], _ => true
  | _ :: _, [] => false
  | a :: as, b :: bs => a == b && startsWithChars as bs

/-- `containsChars pat l` is true when `pat` occurs contiguously in `l`. -/
def containsChars (pat : List Char) : List Char → Bool
  | [] => startsWithChars pat []
  | c :: cs => startsWithChars pat (c :: cs) || containsChars pat cs

/-- Python `pat in s` on strings (substring containment). -/
def hasSubstr (s pat : String) : Bool := containsChars pat.data s.data

/-- Python `s.endswith(pat)`. -/
def endsWithStr (s pat : String) : Bool :=
  startsWithChars pat.data.reverse s.data.reverse

/-- Python `",".join(parts)`. -/
def joinComma : List String → String
  | [] => ""
  | [s] => s
  | s :: rest => s ++ "," ++ joinComma rest

/-- Output of `Transport._compute_key(slot, nbytes)` for the current session:
the derivation is a pure function of the session secrets (fixed for one
activation event), the slot letter and the requested length, so a derived key
is identified by its slot and length. -/
structure DerivedKey where
  slot : String
  len : Nat
deriving DecidableEq, Repr

/-- A cipher object instantiated by the parent class's `_get_engine`,
identified by its construction parameters. -/
structure Engine where
  name : String
  key : DerivedKey
  iv : Option DerivedKey
  decrypt : Bool
  aead : Bool
deriving DecidableEq, Repr

/-- `NoneCipherTransport._get_engine`: returns no engine for `"none"` and
delegates to the parent (which instantiates a real engine) otherwise.  Because
Python dispatches dynamically, this override is the one used on every code
path of the subclass, including the delegated standard path. -/
def NoneCipherTransport.getEngine (name : String) (key : DerivedKey)
    (iv : Option DerivedKey) (decrypt : Bool) (aead : Bool) : Option Engine :=
  if name = "none" then none
  else some { name := name, key := key, iv := iv, decrypt := decrypt, aead := aead }

/-- One entry of `Transport._cipher_info`.  `ivSize` is `none` when the entry
has no `"iv-size"` key (the code falls back to the block size, mirroring
`info.get("iv-size", block_size)`). -/
structure CipherInfo where
  blockSize : Nat
  keySize : Nat
  ivSize : Option Nat
  isAead : Bool
deriving DecidableEq, Repr

/-- One entry of `Transport._mac_info`.  `hasClass` is false when the
`"class"` field is `None` (the `"none"` entry); `digestSize` is
`class().digest_size` for a real MAC class. -/
structure MacInfo where
  hasClass : Bool
  size : Nat
  digestSize : Nat
deriving DecidableEq, Repr

/-- One entry of `Transport._compression_info`: whether the outbound
(index 0) and inbound (index 1) constructors are non-null. -/
structure CompressionInfo where
  hasOut : Bool
  hasIn : Bool
deriving DecidableEq, Repr

/-- The arguments of `packetizer.set_inbound_cipher` as called by activation.
MAC classes are identified by the MAC algorithm name owning them. -/
structure InboundCipherConfig where
  blockEngine : Option Engine
  blockSize : Nat
  macEngine : Option String
  macSize : Nat
  macKey : Option DerivedKey
  etm : Bool
  aead : Bool
  ivIn : Option DerivedKey
deriving DecidableEq, Repr

/-- The arguments of `packetizer.set_outbound_cipher` as called by activation. -/
structure OutboundCipherConfig where
  blockEngine : Option Engine
  blockSize : Nat
  macEngine : Option String
  macSize : Nat
  macKey : Option DerivedKey
  sdctr : Bool
  etm : Bool
  aead : Bool
  ivOut : Option DerivedKey
deriving DecidableEq, Repr

/-- The observable actions an activation method performs, in program order. -/
inductive Event where
  | computeKey (slot : String) (len : Nat)
  | sendNewKeys
  | resetSeqnoIn
  | resetSeqnoOut
  | setInboundCipher (cfg : InboundCipherConfig)
  | setOutboundCipher (cfg : OutboundCipherConfig)
  | setInboundCompressor (name : String)
  | setOutboundCompressor (name : String)
  | setInKexFalse
  | sendExtInfo (extensions : List (String × String))
  | expectNewKeys
deriving DecidableEq, Repr

/-- The transport attributes read by the activation methods. -/
structure TState where
  serverMode : Bool
  authenticated : Bool
  agreedOnStrictKex : Bool
  serverSigAlgs : Bool
  remoteExtInfo : Option String
  needRekey : Bool
  preferredPubkeys : List String
  remoteCipher : String
  localCipher : String
  remoteMac : String
  localMac : String
  remoteCompression : String
  localCompression : String
  cipherInfo : String → CipherInfo
  macInfo : String → MacInfo
  compressionInfo : String → CompressionInfo

/-- Intermediate result of the cipher-setup block of an activation method. -/
structure CipherSetup where
  events : List Event
  engine : Option Engine
  iv : Option DerivedKey
  sdctr : Bool
deriving DecidableEq, Repr

/-- Intermediate result of the MAC-setup block of an activation method. -/
structure MacSetup where
  events : List Event
  macEngine : Option String
  macSize : Nat
  macKey : Option DerivedKey
  etm : Bool
deriving DecidableEq, Repr

/-- The custom null-handling branch of `NoneCipherTransport._activate_inbound`
(`none_cipher_transport.py` lines 44-106): cipher setup (key derivation and
engine instantiation skipped for `"none"`), MAC setup (skipped for `"none"` or
an AEAD cipher), `set_inbound_cipher`, compression, and the strict-kex inbound
sequence-number reset. -/
def customActivateInbound (t : TState) : List Event :=
  let info := t.cipherInfo t.remoteCipher
  let aead := info.isAead
  let blockSize := info.blockSize
  let cipherPart : CipherSetup :=
    if t.remoteCipher = "none" then ⟨[], none, none, false⟩
    else
      let keySize := info.keySize
      let ivSize := info.ivSize.getD blockSize
      let ivKey : DerivedKey := if t.serverMode then ⟨"A", ivSize⟩ else ⟨"B", ivSize⟩
      let encKey : DerivedKey := if t.serverMode then ⟨"C", keySize⟩ else ⟨"D", keySize⟩
      ⟨[Event.computeKey ivKey.slot ivKey.len, Event.computeKey encKey.slot encKey.len],
        NoneCipherTransport.getEngine t.remoteCipher encKey (some ivKey) true aead,
        some ivKey, false⟩
  let macPart : MacSetup :=
    if t.remoteMac ≠ "none" ∧ aead = false then
      let mi := t.macInfo t.remoteMac
      let macKey : DerivedKey :=
        if t.serverMode then ⟨"E", mi.digestSize⟩ else ⟨"F", mi.digestSize⟩
      ⟨[Event.computeKey macKey.slot macKey.len],
        if mi.hasClass then some t.remoteMac else none,
        mi.size, some macKey, hasSubstr t.remoteMac "etm@openssh.com"⟩
    else ⟨[], none, if aead then 16 else 0, none, false⟩
  let cfg : InboundCipherConfig :=
    { blockEngine := cipherPart.engine, blockSize := blockSize,
      macEngine := macPart.macEngine, macSize := macPart.macSize,
      macKey := macPart.macKey, etm := macPart.etm, aead := aead,
      ivIn := if aead then cipherPart.iv else none }
  let compressEvents : List Event :=
    if (t.compressionInfo t.remoteCompression).hasIn = true ∧
        (t.remoteCompression ≠ "zlib@openssh.com" ∨ t.authenticated = true) then
      [Event.setInboundCompressor t.remoteCompression]
    else []
  let strictEvents : List Event :=
    if t.agreedOnStrictKex then [Event.resetSeqnoIn] else []
  cipherPart.events ++ macPart.events ++ [Event.setInboundCipher cfg] ++
    compressEvents ++ strictEvents

/-- The custom null-handling branch of `NoneCipherTransport._activate_outbound`
(`none_cipher_transport.py` lines 120-205): send NEWKEYS, strict-kex outbound
sequence-number reset, cipher setup, MAC setup, `set_outbound_cipher`,
compression, `in_kex = False` when no rekey is pending, conditional EXT_INFO
emission, and finally expecting the peer's NEWKEYS. -/
def customActivateOutbound (t : TState) : List Event :=
  let newKeysEvents : List Event :=
    [Event.sendNewKeys] ++ (if t.agreedOnStrictKex then [Event.resetSeqnoOut] else [])
  let info := t.cipherInfo t.localCipher
  let aead := info.isAead
  let blockSize := info.blockSize
  let cipherPart : CipherSetup :=
    if t.localCipher = "none" then ⟨[], none, none, false⟩
    else
      let keySize := info.keySize
      let ivSize := info.ivSize.getD blockSize
      let ivKey : DerivedKey := if t.serverMode then ⟨"B", ivSize⟩ else ⟨"A", ivSize⟩
      let encKey : DerivedKey := if t.serverMode then ⟨"D", keySize⟩ else ⟨"C", keySize⟩
      ⟨[Event.computeKey ivKey.slot ivKey.len, Event.computeKey encKey.slot encKey.len],
        NoneCipherTransport.getEngine t.localCipher encKey (some ivKey) false aead,
        some ivKey, endsWithStr t.localCipher "-ctr"⟩
  let macPart : MacSetup :=
    if t.localMac ≠ "none" ∧ aead = false then
      let mi := t.macInfo t.localMac
      let macKey : DerivedKey :=
        if t.serverMode then ⟨"F", mi.digestSize⟩ else ⟨"E", mi.digestSize⟩
      ⟨[Event.computeKey macKey.slot macKey.len],
        if mi.hasClass then some t.localMac else none,
        mi.size, some macKey, hasSubstr t.localMac "etm@openssh.com"⟩
    else ⟨[], none, if aead then 16 else 0, none, false⟩
  let cfg : OutboundCipherConfig :=
    { blockEngine := cipherPart.engine, blockSize := blockSize,
      macEngine := macPart.macEngine, macSize := macPart.macSize,
      macKey := macPart.macKey, sdctr := cipherPart.sdctr, etm := macPart.etm,
      aead := aead, ivOut := if aead then cipherPart.iv else none }
  let compressEvents : List Event :=
    if (t.compressionInfo t.localCompression).hasOut = true ∧
        (t.localCompression ≠ "zlib@openssh.com" ∨ t.authenticated = true) then
      [Event.setOutboundCompressor t.localCompression]
    else []
  let inKexEvents : List Event :=
    if t.needRekey then [] else [Event.setInKexFalse]
  let extInfoEvents : List Event :=
    if t.serverMode = true ∧ t.serverSigAlgs = true ∧
        t.remoteExtInfo = some "ext-info-c" then
      [Event.sendExtInfo [("server-sig-algs", joinComma t.preferredPubkeys)]]
    else []
  newKeysEvents ++ cipherPart.events ++ macPart.events ++
    [Event.setOutboundCipher cfg] ++ compressEvents ++ inKexEvents ++
    extInfoEvents ++ [Event.expectNewKeys]

/-- Modelled from the spec: the parent class's standard inbound activation
path (the external library's `Transport._activate_inbound`, not under `src/`).
Per §4.5 it performs the entire standard activation sequence — key derivation
for the direction's IV/key slots, engine instantiation (through the subclass's
dynamically dispatched `_get_engine`), MAC setup, packetizer configuration,
compression setup, strict-kex sequence reset — with null engines in place of
instantiated cipher/MAC objects for the name `"none"`. -/
def parentActivateInbound (t : TState) : List Event :=
  let info := t.cipherInfo t.remoteCipher
  let aead := info.isAead
  let blockSize := info.blockSize
  let keySize := info.keySize
  let ivSize := info.ivSize.getD blockSize
  let ivKey : DerivedKey := if t.serverMode then ⟨"A", ivSize⟩ else ⟨"B", ivSize⟩
  let encKey : DerivedKey := if t.serverMode then ⟨"C", keySize⟩ else ⟨"D", keySize⟩
  let engine := NoneCipherTransport.getEngine t.remoteCipher encKey (some ivKey) true aead
  let mi := t.macInfo t.remoteMac
  let macPart : MacSetup :=
    if t.remoteMac ≠ "none" ∧ aead = false then
      let macKey : DerivedKey :=
        if t.serverMode then ⟨"E", mi.digestSize⟩ else ⟨"F", mi.digestSize⟩
      ⟨[Event.computeKey macKey.slot macKey.len],
        if mi.hasClass then some t.remoteMac else none,
        mi.size, some macKey, hasSubstr t.remoteMac "etm@openssh.com"⟩
    else ⟨[], none, if aead then 16 else mi.size, none, false⟩
  let cfg : InboundCipherConfig :=
    { blockEngine := engine, blockSize := blockSize,
      macEngine := macPart.macEngine, macSize := macPart.macSize,
      macKey := macPart.macKey, etm := macPart.etm, aead := aead,
      ivIn := if aead then some ivKey else none }
  let compressEvents : List Event :=
    if (t.compressionInfo t.remoteCompression).hasIn = true ∧
        (t.remoteCompression ≠ "zlib@openssh.com" ∨ t.authenticated = true) then
      [Event.setInboundCompressor t.remoteCompression]
    else []
  let strictEvents : List Event :=
    if t.agreedOnStrictKex then [Event.resetSeqnoIn] else []
  [Event.computeKey ivKey.slot ivKey.len, Event.computeKey encKey.slot encKey.len] ++
    macPart.events ++ [Event.setInboundCipher cfg] ++ compressEvents ++ strictEvents

/-- Modelled from the spec: the parent class's standard outbound activation
path (the external library's `Transport._activate_outbound`, not under
`src/`), with null engines for the name `"none"` as §4.5 prescribes.  The
custom code's final steps are annotated in the source as copied from this
base logic. -/
def parentActivateOutbound (t : TState) : List Event :=
  let newKeysEvents : List Event :=
    [Event.sendNewKeys] ++ (if t.agreedOnStrictKex then [Event.resetSeqnoOut] else [])
  let info := t.cipherInfo t.localCipher
  let aead := info.isAead
  let blockSize := info.blockSize
  let keySize := info.keySize
  let ivSize := info.ivSize.getD blockSize
  let ivKey : DerivedKey := if t.serverMode then ⟨"B", ivSize⟩ else ⟨"A", ivSize⟩
  let encKey : DerivedKey := if t.serverMode then ⟨"D", keySize⟩ else ⟨"C", keySize⟩
  let engine := NoneCipherTransport.getEngine t.localCipher encKey (some ivKey) false aead
  let sdctr := endsWithStr t.localCipher "-ctr"
  let mi := t.macInfo t.localMac
  let macPart : MacSetup :=
    if t.localMac ≠ "none" ∧ aead = false then
      let macKey : DerivedKey :=
        if t.serverMode then ⟨"F", mi.digestSize⟩ else ⟨"E", mi.digestSize⟩
      ⟨[Event.computeKey macKey.slot macKey.len],
        if mi.hasClass then some t.localMac else none,
        mi.size, some macKey, hasSubstr t.localMac "etm@openssh.com"⟩
    else ⟨[], none, if aead then 16 else mi.size, none, false⟩
  let cfg : OutboundCipherConfig :=
    { blockEngine := engine, blockSize := blockSize,
      macEngine := macPart.macEngine, macSize := macPart.macSize,
      macKey := macPart.macKey, sdctr := sdctr, etm := macPart.etm,
      aead := aead, ivOut := if aead then some ivKey else none }
  let compressEvents : List Event :=
    if (t.compressionInfo t.localCompression).hasOut = true ∧
        (t.localCompression ≠ "zlib@openssh.com" ∨ t.authenticated = true) then
      [Event.setOutboundCompressor t.localCompression]
    else []
  let inKexEvents : List Event :=
    if t.needRekey then [] else [Event.setInKexFalse]
  let extInfoEvents : List Event :=
    if t.serverMode = true ∧ t.serverSigAlgs = true ∧
        t.remoteExtInfo = some "ext-info-c" then
      [Event.sendExtInfo [("server-sig-algs", joinComma t.preferredPubkeys)]]
    else []
  newKeysEvents ++
    [Event.computeKey ivKey.slot ivKey.len, Event.computeKey encKey.slot encKey.len] ++
    macPart.events ++ [Event.setOutboundCipher cfg] ++ compressEvents ++
    inKexEvents ++ extInfoEvents ++ [Event.expectNewKeys]

/-- `NoneCipherTransport._activate_inbound` (lines 37-110): the custom branch
when the remote cipher or remote MAC is `"none"`, the parent path otherwise. -/
def activate_inbound (t : TState) : List Event :=
  if t.remoteCipher = "none" ∨ t.remoteMac = "none" then customActivateInbound t
  else parentActivateInbound t

/-- `NoneCipherTransport._activate_outbound` (lines 113-209): the custom
branch when the local cipher or local MAC is `"none"`, the parent path
otherwise. -/
def activate_outbound (t : TState) : List Event :=
  if t.localCipher = "none" ∨ t.localMac = "none" then customActivateOutbound t
  else parentActivateOutbound t

/-! ### Registry, constructor and demo-session model -/

/-- The `"none"` cipher record installed by `NoneCipherTransport.__init__`:
block size 8, key size 0, iv size 0, not AEAD. -/
def noneCipherInfo : CipherInfo :=
  { blockSize := 8, keySize := 0, ivSize := some 0, isAead := false }

/-- The `"none"` MAC record installed by `NoneCipherTransport.__init__`:
class `None`, size 0. -/
def noneMacInfo : MacInfo := { hasClass := false, size := 0, digestSize := 0 }

/-- The process-wide algorithm parameter tables (class-level dictionaries of
the transport, shared by every instance in the process). -/
structure Tables where
  cipherInfo : String → CipherInfo
  macInfo : String → MacInfo

/-- One session's algorithm preference lists (per-instance attributes). -/
structure SessionPrefs where
  ciphers : List String
  macs : List String
deriving DecidableEq, Repr

instance : Inhabited SessionPrefs := ⟨⟨[], []⟩⟩

/-- `NoneCipherTransport.__init__` (lines 12-27): appends `"none"` to the
instance's cipher and MAC preference tuples, and `update`s the shared
parameter tables with the `"none"` records.  Returns the updated shared
tables and the new instance's preference lists. -/
def transportInit (shared : Tables) (defaults : SessionPrefs) :
    Tables × SessionPrefs :=
  ({ cipherInfo := fun n => if n = "none" then noneCipherInfo else shared.cipherInfo n,
     macInfo := fun n => if n = "none" then noneMacInfo else shared.macInfo n },
   { ciphers := defaults.ciphers ++ ["none"], macs := defaults.macs ++ ["none"] })

/-- The demo client's and server's reordering (`ssh_client.py` 34-35,
`ssh_server.py` 82-83): `('none',) + tuple(x for x in prefs if x != 'none')`
for both lists. -/
def forceNoneFirst (p : SessionPrefs) : SessionPrefs :=
  { ciphers := "none" :: p.ciphers.filter (fun c => c ≠ "none"),
    macs := "none" :: p.macs.filter (fun m => m ≠ "none") }

/-- A process: the shared parameter tables plus the preference lists of each
transport constructed so far (indexed by construction order). -/
structure World where
  tables : Tables
  sessions : List SessionPrefs

/-- Constructing one more `NoneCipherTransport` in a process. -/
def constructTransport (w : World) (defaults : SessionPrefs) : World :=
  let r := transportInit w.tables defaults
  { tables := r.1, sessions := w.sessions ++ [r.2] }

/-- The demo's in-place preference reordering of the transport at index `i`. -/
def reorderSession (w : World) (i : Nat) : World :=
  { w with sessions := w.sessions.set i (forceNoneFirst (w.sessions.getD i default)) }

/-- Modelled from the spec: the process-wide compression registry (§4.2) —
pairs of outbound/inbound constructors, not under `src/`; `"none"` is the
sentinel no-op entry with null constructors, while `"zlib"` and the delayed
`"zlib@openssh.com"` carry real constructors in both directions. -/
def compressionTable : String → CompressionInfo := fun n =>
  if n = "zlib" ∨ n = "zlib@openssh.com" then ⟨true, true⟩ else ⟨false, false⟩

/-- Modelled from the spec: SSH packet framing length (§4.1, §6) — 4-byte
length field, 1-byte padding length, payload, and at least 4 bytes of padding,
padded so the total is a multiple of the direction's block size with a minimum
block size of 8.  The packetizer itself is not under `src/`. -/
def paddedPacketLen (blockSize payloadLen : Nat) : Nat :=
  let bs := max blockSize 8
  let base := payloadLen + 5 + 4
  base + (bs - base % bs) % bs

/-- Modelled from the spec: algorithm negotiation (§4.4), not under `src/` —
the chosen name is the first name in the initiator-relevant preference list
that also appears in the peer's list. -/
def negotiate (initiatorPref peerPref : List String) : Option String :=
  initiatorPref.find? (fun a => peerPref.contains a)

/-! ### Demo server (`ssh_server.py`) -/

def AUTH_SUCCESSFUL : Nat := 0
def AUTH_FAILED : Nat := 2
def OPEN_SUCCEEDED : Nat := 0
def OPEN_FAILED_ADMINISTRATIVELY_PROHIBITED : Nat := 1

/-- `AllowAllServer.check_auth_none` (lines 38-42): any user succeeds. -/
def AllowAllServer.check_auth_none (username : String) : Nat := AUTH_SUCCESSFUL

/-- `AllowAllServer.check_auth_password` (lines 45-47): always rejected. -/
def AllowAllServer.check_auth_password (username password : String) : Nat :=
  AUTH_FAILED

/-- `AllowAllServer.check_auth_publickey` (lines 49-51): always rejected. -/
def AllowAllServer.check_auth_publickey (username key : String) : Nat :=
  AUTH_FAILED

/-- `AllowAllServer.get_allowed_auths` (lines 53-56). -/
def AllowAllServer.get_allowed_auths (username : String) : String := "none"

/-- `AllowAllServer.check_channel_request` (lines 32-36). -/
def AllowAllServer.check_channel_request (kind : String) (chanid : Nat) : Nat :=
  if kind = "session" then OPEN_SUCCEEDED
  else OPEN_FAILED_ADMINISTRATIVELY_PROHIBITED

/-- What the server writes on the accepted channel and the exit status it
signals (`ssh_server.py` lines 142-152). -/
inductive ChanAction where
  | chanData (bytes : List Char)
  | chanExitStatus (code : Nat)
  | chanEof
  | chanClose
deriving DecidableEq, Repr

/-- The hello message sent by `handle_connection` (line 143). -/
def helloMessage : List Char := "Hello World from Paramiko Server!\n".data

/-- `handle_connection`'s channel script (lines 142-152): send the hello
bytes, signal exit status 0, shut down writing, close. -/
def serverChannelScript : List ChanAction :=
  [ChanAction.chanData helloMessage, ChanAction.chanExitStatus 0,
    ChanAction.chanEof, ChanAction.chanClose]

/-- Modelled from the spec: in-order reliable channel delivery (§4.6, §5) —
the byte stream a reader observes is the concatenation of the data chunks in
send order, readable in full after the sender's half-close. -/
def deliveredBytes (script : List ChanAction) : List Char :=
  script.foldr
    (fun a acc => match a with | ChanAction.chanData bs => bs ++ acc | _ => acc) []

/-- Modelled from the spec: `channel.recv(n)` after the peer's half-close
returns up to `n` buffered bytes (§4.6). -/
def recvChunk (n : Nat) (script : List ChanAction) : List Char :=
  (deliveredBytes script).take n

/-- Modelled from the spec: the exit status the reader observes (§4.6). -/
def deliveredExit (script : List ChanAction) : Option Nat :=
  script.findSome?
    (fun a => match a with | ChanAction.chanExitStatus c => some c | _ => none)

/-! ### Event classifiers and trace projections -/

def Event.isComputeKey : Event → Bool
  | Event.computeKey _ _ => true
  | _ => false

def Event.isResetIn : Event → Bool
  | Event.resetSeqnoIn => true
  | _ => false

def Event.isResetOut : Event → Bool
  | Event.resetSeqnoOut => true
  | _ => false

def Event.isSetInCipher : Event → Bool
  | Event.setInboundCipher _ => true
  | _ => false

def Event.isSetOutCipher : Event → Bool
  | Event.setOutboundCipher _ => true
  | _ => false

def Event.isInCompressor : Event → Bool
  | Event.setInboundCompressor _ => true
  | _ => false

def Event.isOutCompressor : Event → Bool
  | Event.setOutboundCompressor _ => true
  | _ => false

def Event.isExtInfo : Event → Bool
  | Event.sendExtInfo _ => true
  | _ => false

/-- The externally observable actions of a trace: everything except the pure
`_compute_key` evaluations (which have no external effect). -/
def observable (tr : List Event) : List Event :=
  tr.filter (fun e => !e.isComputeKey)

/-- The slot letters of the `_compute_key` calls of a trace, in order. -/
def computeKeySlots (tr : List Event) : List String :=
  tr.filterMap (fun e => match e with | Event.computeKey s _ => some s | _ => none)

/-- The inbound packetizer configurations installed by a trace. -/
def inboundConfigs (tr : List Event) : List InboundCipherConfig :=
  tr.filterMap (fun e => match e with | Event.setInboundCipher c => some c | _ => none)

/-- The outbound packetizer configurations installed by a trace. -/
def outboundConfigs (tr : List Event) : List OutboundCipherConfig :=
  tr.filterMap (fun e => match e with | Event.setOutboundCipher c => some c | _ => none)

/-- Transport states whose tables carry the `"none"` records installed by
`NoneCipherTransport.__init__`, and whose real MAC entries carry a real class
object (true of every registered MAC algorithm). -/
def WellFormed (t : TState) : Prop :=
  t.cipherInfo "none" = noneCipherInfo ∧
  t.macInfo "none" = noneMacInfo ∧
  (t.remoteMac ≠ "none" → (t.macInfo t.remoteMac).hasClass = true) ∧
  (t.localMac ≠ "none" → (t.macInfo t.localMac).hasClass = true)

/-! ### Concrete states for witnesses and counterexamples -/

/-- A representative real (non-null) cipher record. -/
def realCipherInfo : CipherInfo :=
  { blockSize := 16, keySize := 16, ivSize := some 16, isAead := false }

/-- A representative real MAC record. -/
def realMacInfo : MacInfo := { hasClass := true, size := 32, digestSize := 32 }

/-- Base tables before constructing the custom transport. -/
def baseTables : Tables :=
  { cipherInfo := fun _ => realCipherInfo, macInfo := fun _ => realMacInfo }

/-- Tables after `NoneCipherTransport.__init__` has run. -/
def demoTables : Tables :=
  (transportInit baseTables ⟨["aes128-ctr"], ["hmac-sha2-256"]⟩).1

/-- A concrete transport state over the demo tables. -/
def mkState (serverMode authenticated strict sigAlgs : Bool) (ext : Option String)
    (rc lc rm lm rcomp lcomp : String) : TState :=
  { serverMode := serverMode, authenticated := authenticated,
    agreedOnStrictKex := strict, serverSigAlgs := sigAlgs,
    remoteExtInfo := ext, needRekey := false,
    preferredPubkeys := ["rsa-sha2-512", "rsa-sha2-256", "ssh-rsa"],
    remoteCipher := rc, localCipher := lc, remoteMac := rm, localMac := lm,
    remoteCompression := rcomp, localCompression := lcomp,
    cipherInfo := demoTables.cipherInfo, macInfo := demoTables.macInfo,
    compressionInfo := compressionTable }

/-! ### Trace lemmas -/

theorem observable_append (a b : List Event) :
    observable (a ++ b) = observable a ++ observable b := by
  simp [observable]

theorem computeKeySlots_append (a b : List Event) :
    computeKeySlots (a ++ b) = computeKeySlots a ++ computeKeySlots b := by
  simp [computeKeySlots]

theorem computeKeySlots_ite (c : Prop) [Decidable c] (a b : List Event) :
    computeKeySlots (if c then a else b) =
      if c then computeKeySlots a else computeKeySlots b := by
  split <;> rfl

theorem computeKeySlots_nil : computeKeySlots [] = [] := rfl

theorem computeKeySlots_compute (s : String) (n : Nat) (rest : List Event) :
    computeKeySlots (Event.computeKey s n :: rest) = s :: computeKeySlots rest := rfl

theorem computeKeySlots_cons_of_not (e : Event) (rest : List Event)
    (h : e.isComputeKey = false) :
    computeKeySlots (e :: rest) = computeKeySlots rest := by
  cases e <;> simp_all [computeKeySlots, Event.isComputeKey]

theorem observable_ite (c : Prop) [Decidable c] (a b : List Event) :
    observable (if c then a else b) =
      if c then observable a else observable b := by
  split <;> rfl

theorem observable_nil : observable [] = [] := rfl

theorem observable_compute (s : String) (n : Nat) (rest : List Event) :
    observable (Event.computeKey s n :: rest) = observable rest := rfl

theorem observable_cons_of_not (e : Event) (rest : List Event)
    (h : e.isComputeKey = false) :
    observable (e :: rest) = e :: observable rest := by
  cases e <;> simp_all [observable, Event.isComputeKey]

theorem countP_resetOut_customOut (t : TState) :
    (customActivateOutbound t).countP Event.isResetOut =
      if t.agreedOnStrictKex then 1 else 0 := by
  unfold customActivateOutbound
  by_cases h : t.agreedOnStrictKex = true <;>
    simp [h, List.countP_append, List.countP_cons,
      apply_ite CipherSetup.events, apply_ite MacSetup.events,
      apply_ite (List.countP Event.isResetOut), Event.isResetOut]

theorem countP_resetOut_parentOut (t : TState) :
    (parentActivateOutbound t).countP Event.isResetOut =
      if t.agreedOnStrictKex then 1 else 0 := by
  unfold parentActivateOutbound
  by_cases h : t.agreedOnStrictKex = true <;>
    simp [h, List.countP_append, List.countP_cons,
      apply_ite MacSetup.events,
      apply_ite (List.countP Event.isResetOut), Event.isResetOut]

theorem countP_resetIn_customOut (t : TState) :
    (customActivateOutbound t).countP Event.isResetIn = 0 := by
  unfold customActivateOutbound
  simp [List.countP_append, List.countP_cons,
    apply_ite CipherSetup.events, apply_ite MacSetup.events,
    apply_ite (List.countP Event.isResetIn), Event.isResetIn]

theorem countP_resetIn_parentOut (t : TState) :
    (parentActivateOutbound t).countP Event.isResetIn = 0 := by
  unfold parentActivateOutbound
  simp [List.countP_append, List.countP_cons,
    apply_ite MacSetup.events,
    apply_ite (List.countP Event.isResetIn), Event.isResetIn]

theorem countP_resetIn_customIn (t : TState) :
    (customActivateInbound t).countP Event.isResetIn =
      if t.agreedOnStrictKex then 1 else 0 := by
  unfold customActivateInbound
  by_cases h : t.agreedOnStrictKex = true <;>
    simp [h, List.countP_append, List.countP_cons,
      apply_ite CipherSetup.events, apply_ite MacSetup.events,
      apply_ite (List.countP Event.isResetIn), Event.isResetIn]

theorem countP_resetIn_parentIn (t : TState) :
    (parentActivateInbound t).countP Event.isResetIn =
      if t.agreedOnStrictKex then 1 else 0 := by
  unfold parentActivateInbound
  by_cases h : t.agreedOnStrictKex = true <;>
    simp [h, List.countP_append, List.countP_cons,
      apply_ite MacSetup.events,
      apply_ite (List.countP Event.isResetIn), Event.isResetIn]

theorem countP_resetOut_customIn (t : TState) :
    (customActivateInbound t).countP Event.isResetOut = 0 := by
  unfold customActivateInbound
  simp [List.countP_append, List.countP_cons,
    apply_ite CipherSetup.events, apply_ite MacSetup.events,
    apply_ite (List.countP Event.isResetOut), Event.isResetOut]

theorem countP_resetOut_parentIn (t : TState) :
    (parentActivateInbound t).countP Event.isResetOut = 0 := by
  unfold parentActivateInbound
  simp [List.countP_append, List.countP_cons,
    apply_ite MacSetup.events,
    apply_ite (List.countP Event.isResetOut), Event.isResetOut]

theorem take2_customOut (t : TState) (h : t.agreedOnStrictKex = true) :
    (customActivateOutbound t).take 2 = [Event.sendNewKeys, Event.resetSeqnoOut] := by
  unfold customActivateOutbound
  simp [h]

theorem take2_parentOut (t : TState) (h : t.agreedOnStrictKex = true) :
    (parentActivateOutbound t).take 2 = [Event.sendNewKeys, Event.resetSeqnoOut] := by
  unfold parentActivateOutbound
  simp [h]

theorem inboundConfigs_append (a b : List Event) :
    inboundConfigs (a ++ b) = inboundConfigs a ++ inboundConfigs b := by
  simp [inboundConfigs]

theorem inboundConfigs_ite (c : Prop) [Decidable c] (a b : List Event) :
    inboundConfigs (if c then a else b) =
      if c then inboundConfigs a else inboundConfigs b := by
  split <;> rfl

theorem inboundConfigs_nil : inboundConfigs [] = [] := rfl

theorem inboundConfigs_cons_cfg (cfg : InboundCipherConfig) (rest : List Event) :
    inboundConfigs (Event.setInboundCipher cfg :: rest) = cfg :: inboundConfigs rest := rfl

theorem inboundConfigs_cons_of_not (e : Event) (rest : List Event)
    (h : e.isSetInCipher = false) :
    inboundConfigs (e :: rest) = inboundConfigs rest := by
  cases e <;> simp_all [inboundConfigs, Event.isSetInCipher]

theorem outboundConfigs_append (a b : List Event) :
    outboundConfigs (a ++ b) = outboundConfigs a ++ outboundConfigs b := by
  simp [outboundConfigs]

theorem outboundConfigs_ite (c : Prop) [Decidable c] (a b : List Event) :
    outboundConfigs (if c then a else b) =
      if c then outboundConfigs a else outboundConfigs b := by
  split <;> rfl

theorem outboundConfigs_nil : outboundConfigs [] = [] := rfl

theorem outboundConfigs_cons_cfg (cfg : OutboundCipherConfig) (rest : List Event) :
    outboundConfigs (Event.setOutboundCipher cfg :: rest) = cfg :: outboundConfigs rest := rfl

theorem outboundConfigs_cons_of_not (e : Event) (rest : List Event)
    (h : e.isSetOutCipher = false) :
    outboundConfigs (e :: rest) = outboundConfigs rest := by
  cases e <;> simp_all [outboundConfigs, Event.isSetOutCipher]

theorem countP_extInfo_customOut (t : TState) :
    (customActivateOutbound t).countP Event.isExtInfo =
      if t.serverMode = true ∧ t.serverSigAlgs = true ∧
          t.remoteExtInfo = some "ext-info-c" then 1 else 0 := by
  unfold customActivateOutbound
  by_cases h : t.serverMode = true ∧ t.serverSigAlgs = true ∧
      t.remoteExtInfo = some "ext-info-c" <;>
    simp [h, List.countP_append, List.countP_cons,
      apply_ite CipherSetup.events, apply_ite MacSetup.events,
      apply_ite (List.countP Event.isExtInfo), Event.isExtInfo]

theorem countP_extInfo_parentOut (t : TState) :
    (parentActivateOutbound t).countP Event.isExtInfo =
      if t.serverMode = true ∧ t.serverSigAlgs = true ∧
          t.remoteExtInfo = some "ext-info-c" then 1 else 0 := by
  unfold parentActivateOutbound
  by_cases h : t.serverMode = true ∧ t.serverSigAlgs = true ∧
      t.remoteExtInfo = some "ext-info-c" <;>
    simp [h, List.countP_append, List.countP_cons,
      apply_ite MacSetup.events,
      apply_ite (List.countP Event.isExtInfo), Event.isExtInfo]

theorem countP_extInfo_customIn (t : TState) :
    (customActivateInbound t).countP Event.isExtInfo = 0 := by
  unfold customActivateInbound
  simp [List.countP_append, List.countP_cons,
    apply_ite CipherSetup.events, apply_ite MacSetup.events,
    apply_ite (List.countP Event.isExtInfo), Event.isExtInfo]

theorem countP_extInfo_parentIn (t : TState) :
    (parentActivateInbound t).countP Event.isExtInfo = 0 := by
  unfold parentActivateInbound
  simp [List.countP_append, List.countP_cons,
    apply_ite MacSetup.events,
    apply_ite (List.countP Event.isExtInfo), Event.isExtInfo]

theorem revTake_customOut (t : TState)
    (h : t.serverMode = true ∧ t.serverSigAlgs = true ∧
      t.remoteExtInfo = some "ext-info-c") :
    (customActivateOutbound t).reverse.take 2 =
      [Event.expectNewKeys,
       Event.sendExtInfo [("server-sig-algs", joinComma t.preferredPubkeys)]] := by
  unfold customActivateOutbound
  simp [h, List.reverse_append]

theorem revTake_parentOut (t : TState)
    (h : t.serverMode = true ∧ t.serverSigAlgs = true ∧
      t.remoteExtInfo = some "ext-info-c") :
    (parentActivateOutbound t).reverse.take 2 =
      [Event.expectNewKeys,
       Event.sendExtInfo [("server-sig-algs", joinComma t.preferredPubkeys)]] := by
  unfold parentActivateOutbound
  simp [h, List.reverse_append]

theorem take1_customOut (t : TState) :
    (customActivateOutbound t).take 1 = [Event.sendNewKeys] := by
  unfold customActivateOutbound
  simp

theorem take1_parentOut (t : TState) :
    (parentActivateOutbound t).take 1 = [Event.sendNewKeys] := by
  unfold parentActivateOutbound
  simp

/-! ### Claim theorems -/

/-- C1: for every activation event and each direction, `_activate_inbound`
takes the custom null-handling path exactly when the negotiated remote cipher
or remote MAC is `"none"`, and `_activate_outbound` takes it exactly when the
negotiated local cipher or local MAC is `"none"`; in every other case the
method delegates unchanged to the parent (standard) activation path. -/
theorem c1_activation_dispatch (t : TState) :
    (t.remoteCipher = "none" ∨ t.remoteMac = "none" →
      activate_inbound t = customActivateInbound t) ∧
    (t.remoteCipher ≠ "none" ∧ t.remoteMac ≠ "none" →
      activate_inbound t = parentActivateInbound t) ∧
    (t.localCipher = "none" ∨ t.localMac = "none" →
      activate_outbound t = customActivateOutbound t) ∧
    (t.localCipher ≠ "none" ∧ t.localMac ≠ "none" →
      activate_outbound t = parentActivateOutbound t) := by
  refine ⟨fun h => ?_, fun h => ?_, fun h => ?_, fun h => ?_⟩
  · simp [activate_inbound, h]
  · simp [activate_inbound, h.1, h.2]
  · simp [activate_outbound, h]
  · simp [activate_outbound, h.1, h.2]

/-- A state whose inbound direction negotiated the null cipher while the
outbound direction negotiated only real algorithms. -/
def c1State : TState :=
  mkState false false false false none
    "none" "aes128-ctr" "hmac-sha2-256" "hmac-sha2-256" "none" "none"

/-- Witness for C1: at `c1State` the inbound activation takes the custom path
and the outbound activation delegates to the parent path. -/
theorem c1_activation_dispatch_witness :
    activate_inbound c1State = customActivateInbound c1State ∧
    activate_outbound c1State = parentActivateOutbound c1State :=
  ⟨(c1_activation_dispatch c1State).1 (Or.inl rfl),
   (c1_activation_dispatch c1State).2.2.2 ⟨by decide, by decide⟩⟩

/-- Server-mode state with remote cipher `"none"` but a real remote MAC: the
concrete input on which C3 fails. -/
def c3State : TState :=
  mkState true false true true none
    "none" "none" "hmac-sha2-256" "none" "none" "none"

/-- C3 counterexample: on a server-mode inbound activation whose remote
cipher is `"none"`, the standard IV slot `"A"` and encryption-key slot `"C"`
for that direction are never passed to `_compute_key` — the only derivation
performed is the MAC key (slot `"E"`).  This refutes the claim that the
IV/encryption-key derivations still happen and are merely unused. -/
theorem c3_counterexample :
    c3State.remoteCipher = "none" ∧ c3State.serverMode = true ∧
    computeKeySlots (customActivateInbound c3State) = ["E"] ∧
    "A" ∉ computeKeySlots (customActivateInbound c3State) ∧
    "C" ∉ computeKeySlots (customActivateInbound c3State) := by decide

/-- C3 amended: activation performs the direction's IV/encryption-key
derivations (slots A-D, assigned by role and direction) exactly when that
direction's cipher is not `"none"`, and the MAC-key derivation (slots E/F)
exactly when the MAC is not `"none"` and the cipher is not AEAD; when the
cipher is `"none"` the IV/key derivations are skipped outright. -/
theorem c3_amended_key_derivation (t : TState) :
    computeKeySlots (customActivateInbound t) =
      ((if t.remoteCipher = "none" then []
        else [if t.serverMode then "A" else "B", if t.serverMode then "C" else "D"]) ++
       (if t.remoteMac ≠ "none" ∧ (t.cipherInfo t.remoteCipher).isAead = false then
          [if t.serverMode then "E" else "F"]
        else [])) ∧
    computeKeySlots (customActivateOutbound t) =
      ((if t.localCipher = "none" then []
        else [if t.serverMode then "B" else "A", if t.serverMode then "D" else "C"]) ++
       (if t.localMac ≠ "none" ∧ (t.cipherInfo t.localCipher).isAead = false then
          [if t.serverMode then "F" else "E"]
        else [])) := by
  constructor
  · unfold customActivateInbound
    by_cases h1 : t.remoteCipher = "none" <;>
    cases hsm : t.serverMode <;>
      simp [h1, hsm, computeKeySlots_append, computeKeySlots_ite,
        computeKeySlots_nil, computeKeySlots_compute, computeKeySlots_cons_of_not,
        Event.isComputeKey,
        apply_ite CipherSetup.events, apply_ite MacSetup.events]
  · unfold customActivateOutbound
    by_cases h1 : t.localCipher = "none" <;>
    cases hsm : t.serverMode <;>
      simp [h1, hsm, computeKeySlots_append, computeKeySlots_ite,
        computeKeySlots_nil, computeKeySlots_compute, computeKeySlots_cons_of_not,
        Event.isComputeKey,
        apply_ite CipherSetup.events, apply_ite MacSetup.events]

/-- C4: packetizer sequence numbers are reset only under
`agreed_on_strict_kex`, exactly once per direction: the outbound counter right
after NEWKEYS is sent (the first two actions of outbound activation), the
inbound counter during inbound activation; without strict kex no activation
resets any sequence number. -/
theorem c4_strict_seqno_reset (t : TState) :
    (activate_outbound t).countP Event.isResetOut =
      (if t.agreedOnStrictKex then 1 else 0) ∧
    (activate_outbound t).countP Event.isResetIn = 0 ∧
    (activate_inbound t).countP Event.isResetIn =
      (if t.agreedOnStrictKex then 1 else 0) ∧
    (activate_inbound t).countP Event.isResetOut = 0 ∧
    (t.agreedOnStrictKex = true →
      (activate_outbound t).take 2 = [Event.sendNewKeys, Event.resetSeqnoOut]) := by
  refine ⟨?_, ?_, ?_, ?_, fun hs => ?_⟩
  · by_cases hb : t.localCipher = "none" ∨ t.localMac = "none"
    · unfold activate_outbound; rw [if_pos hb]; exact countP_resetOut_customOut t
    · unfold activate_outbound; rw [if_neg hb]; exact countP_resetOut_parentOut t
  · by_cases hb : t.localCipher = "none" ∨ t.localMac = "none"
    · unfold activate_outbound; rw [if_pos hb]; exact countP_resetIn_customOut t
    · unfold activate_outbound; rw [if_neg hb]; exact countP_resetIn_parentOut t
  · by_cases hb : t.remoteCipher = "none" ∨ t.remoteMac = "none"
    · unfold activate_inbound; rw [if_pos hb]; exact countP_resetIn_customIn t
    · unfold activate_inbound; rw [if_neg hb]; exact countP_resetIn_parentIn t
  · by_cases hb : t.remoteCipher = "none" ∨ t.remoteMac = "none"
    · unfold activate_inbound; rw [if_pos hb]; exact countP_resetOut_customIn t
    · unfold activate_inbound; rw [if_neg hb]; exact countP_resetOut_parentIn t
  · by_cases hb : t.localCipher = "none" ∨ t.localMac = "none"
    · unfold activate_outbound; rw [if_pos hb]; exact take2_customOut t hs
    · unfold activate_outbound; rw [if_neg hb]; exact take2_parentOut t hs

/-- Witness for C4: with strict kex agreed, a concrete outbound activation
begins with NEWKEYS followed immediately by the outbound reset. -/
theorem c4_strict_seqno_reset_witness :
    (activate_outbound c3State).take 2 = [Event.sendNewKeys, Event.resetSeqnoOut] :=
  (c4_strict_seqno_reset c3State).2.2.2.2 (by decide)

/-- C5: the `"none"` cipher record registered by the constructor has block
size 8, key size 0, IV size 0 and is not AEAD, and the `"none"` MAC record
has no class and size 0; activating a direction that negotiated
cipher `"none"` and MAC `"none"` still installs a first-class packetizer
configuration — block size 8 (so framing pads to a multiple of 8), MAC size
0, null engines, no ETM/AEAD — rather than leaving the direction
unconfigured. -/
theorem c5_none_first_class (shared : Tables) (defaults : SessionPrefs)
    (t : TState) (n : Nat)
    (hc : t.cipherInfo "none" = noneCipherInfo)
    (hrc : t.remoteCipher = "none") (hrm : t.remoteMac = "none") :
    (transportInit shared defaults).1.cipherInfo "none" =
      { blockSize := 8, keySize := 0, ivSize := some 0, isAead := false } ∧
    (transportInit shared defaults).1.macInfo "none" =
      { hasClass := false, size := 0, digestSize := 0 } ∧
    inboundConfigs (customActivateInbound t) =
      [{ blockEngine := none, blockSize := 8, macEngine := none, macSize := 0,
         macKey := none, etm := false, aead := false, ivIn := none }] ∧
    paddedPacketLen 8 n % 8 = 0 := by
  refine ⟨rfl, rfl, ?_, ?_⟩
  · unfold customActivateInbound
    simp [hrc, hrm, hc, noneCipherInfo,
      inboundConfigs_append, inboundConfigs_ite, inboundConfigs_nil,
      inboundConfigs_cons_cfg, inboundConfigs_cons_of_not, Event.isSetInCipher]
  · simp only [paddedPacketLen, Nat.max_self]
    omega

/-- A state whose both directions negotiated the null cipher and null MAC. -/
def c5State : TState :=
  mkState false false false false none "none" "none" "none" "none" "none" "none"

/-- Witness for C5: concrete evaluation of the null-direction activation. -/
theorem c5_none_first_class_witness :
    inboundConfigs (customActivateInbound c5State) =
      [{ blockEngine := none, blockSize := 8, macEngine := none, macSize := 0,
         macKey := none, etm := false, aead := false, ivIn := none }] ∧
    paddedPacketLen 8 34 % 8 = 0 :=
  ⟨(c5_none_first_class baseTables ⟨[], []⟩ c5State 34 (by decide) rfl rfl).2.2.1,
   (c5_none_first_class baseTables ⟨[], []⟩ c5State 34 (by decide) rfl rfl).2.2.2⟩

/-- An already-authenticated server-mode state with the peer's `ext-info-c`
advertisement on record: the state of an outbound rekey activation after
authentication. -/
def c6State : TState :=
  mkState true true true true (some "ext-info-c")
    "none" "none" "none" "none" "none" "none"

/-- C6 counterexample: outbound activation of an already-authenticated
transport — that is, a rekey activation, since the initial activation happens
before authentication — still emits EXT_INFO when server mode,
`server_sig_algs` and the recorded `ext-info-c` advertisement hold; nothing
in the code restricts the emission to the initial handshake. -/
theorem c6_counterexample :
    c6State.authenticated = true ∧
    (activate_outbound c6State).countP Event.isExtInfo = 1 := by decide

/-- C6 amended: outbound activation (initial or rekey alike) emits EXT_INFO —
carrying the single `server-sig-algs` extension, the comma-join of
`preferred_pubkeys` — exactly once when the transport is in server mode with
`server_sig_algs` set and the recorded peer advertisement is `"ext-info-c"`,
and never otherwise; the emission comes after the NEWKEYS send (the
activation's first action) and immediately before expecting the peer's
NEWKEYS; inbound activation never emits EXT_INFO.  The code consults neither
authentication nor rekey status here, so the once-per-initial-handshake
restriction of the original claim is not enforced by this code. -/
theorem c6_amended_ext_info (t : TState) :
    ((activate_outbound t).countP Event.isExtInfo =
      if t.serverMode = true ∧ t.serverSigAlgs = true ∧
          t.remoteExtInfo = some "ext-info-c" then 1 else 0) ∧
    (t.serverMode = true ∧ t.serverSigAlgs = true ∧
        t.remoteExtInfo = some "ext-info-c" →
      (activate_outbound t).reverse.take 2 =
        [Event.expectNewKeys,
         Event.sendExtInfo [("server-sig-algs", joinComma t.preferredPubkeys)]]) ∧
    (activate_outbound t).take 1 = [Event.sendNewKeys] ∧
    (activate_inbound t).countP Event.isExtInfo = 0 := by
  refine ⟨?_, fun h => ?_, ?_, ?_⟩
  · by_cases hb : t.localCipher = "none" ∨ t.localMac = "none"
    · unfold activate_outbound; rw [if_pos hb]; exact countP_extInfo_customOut t
    · unfold activate_outbound; rw [if_neg hb]; exact countP_extInfo_parentOut t
  · by_cases hb : t.localCipher = "none" ∨ t.localMac = "none"
    · unfold activate_outbound; rw [if_pos hb]; exact revTake_customOut t h
    · unfold activate_outbound; rw [if_neg hb]; exact revTake_parentOut t h
  · by_cases hb : t.localCipher = "none" ∨ t.localMac = "none"
    · unfold activate_outbound; rw [if_pos hb]; exact take1_customOut t
    · unfold activate_outbound; rw [if_neg hb]; exact take1_parentOut t
  · by_cases hb : t.remoteCipher = "none" ∨ t.remoteMac = "none"
    · unfold activate_inbound; rw [if_pos hb]; exact countP_extInfo_customIn t
    · unfold activate_inbound; rw [if_neg hb]; exact countP_extInfo_parentIn t

/-- Witness for C6 (amended): the EXT_INFO payload and position evaluated at
a concrete server-mode state. -/
theorem c6_amended_ext_info_witness :
    (activate_outbound c6State).reverse.take 2 =
      [Event.expectNewKeys,
       Event.sendExtInfo
         [("server-sig-algs", joinComma c6State.preferredPubkeys)]] :=
  (c6_amended_ext_info c6State).2.1 ⟨rfl, rfl, rfl⟩

/-- C7: construction appends `"none"` to the session's cipher and MAC
preference lists and adds the `"none"` records to the process-wide cipher and
MAC parameter tables without touching any other entry; preference lists are
per-session (constructing another transport, or the demo's reordering that
puts `"none"` first exactly once, leaves every other session's lists
untouched), while the parameter tables are the shared process-wide state. -/
theorem c7_construction_frame (shared : Tables) (defaults : SessionPrefs)
    (w : World) (name : String) (i j : Nat) (p : SessionPrefs)
    (hn : name ≠ "none") (hj : j < w.sessions.length) (hij : j ≠ i) :
    (transportInit shared defaults).1.cipherInfo name = shared.cipherInfo name ∧
    (transportInit shared defaults).1.macInfo name = shared.macInfo name ∧
    (transportInit shared defaults).1.cipherInfo "none" = noneCipherInfo ∧
    (transportInit shared defaults).1.macInfo "none" = noneMacInfo ∧
    (transportInit shared defaults).2 =
      { ciphers := defaults.ciphers ++ ["none"], macs := defaults.macs ++ ["none"] } ∧
    (constructTransport w defaults).sessions.take w.sessions.length = w.sessions ∧
    (constructTransport w defaults).tables.cipherInfo name = w.tables.cipherInfo name ∧
    (reorderSession w i).tables.cipherInfo name = w.tables.cipherInfo name ∧
    (reorderSession w i).sessions.get? j = w.sessions.get? j ∧
    (forceNoneFirst p).ciphers.count "none" = 1 ∧
    (forceNoneFirst p).macs.count "none" = 1 ∧
    (forceNoneFirst p).ciphers.head? = some "none" ∧
    (forceNoneFirst p).macs.head? = some "none" := by
  refine ⟨?_, ?_, rfl, rfl, rfl, ?_, ?_, rfl, ?_, ?_, ?_, rfl, rfl⟩
  · simp [transportInit, hn]
  · simp [transportInit, hn]
  · exact List.take_left w.sessions _
  · simp [constructTransport, transportInit, hn]
  · simp [reorderSession, List.getElem?_set_ne (Ne.symm hij)]
  · simp [forceNoneFirst, List.count_cons_self]
    rw [List.count_eq_zero]
    simp
  · simp [forceNoneFirst, List.count_cons_self]
    rw [List.count_eq_zero]
    simp

/-- Witness for C7: the frame conditions evaluated on a concrete world of two
constructed transports. -/
theorem c7_construction_frame_witness :
    (transportInit baseTables ⟨["aes128-ctr"], ["hmac-sha2-256"]⟩).1.cipherInfo
        "aes128-ctr" = baseTables.cipherInfo "aes128-ctr" ∧
    (reorderSession
        (constructTransport
          (constructTransport ⟨baseTables, []⟩ ⟨["aes128-ctr"], ["hmac-sha2-256"]⟩)
          ⟨["aes128-ctr"], ["hmac-sha2-256"]⟩) 1).sessions.get? 0 =
      (constructTransport
        (constructTransport ⟨baseTables, []⟩ ⟨["aes128-ctr"], ["hmac-sha2-256"]⟩)
        ⟨["aes128-ctr"], ["hmac-sha2-256"]⟩).sessions.get? 0 ∧
    (forceNoneFirst ⟨["aes128-ctr", "none"], ["hmac-sha2-256", "none"]⟩).ciphers.count
        "none" = 1 := by
  refine ⟨?_, ?_, ?_⟩
  · exact (c7_construction_frame baseTables ⟨["aes128-ctr"], ["hmac-sha2-256"]⟩
      ⟨baseTables, [⟨[], []⟩]⟩ "aes128-ctr" 1 0 ⟨[], []⟩
      (by decide) (by decide) (by decide)).1
  · exact (c7_construction_frame baseTables ⟨["aes128-ctr"], ["hmac-sha2-256"]⟩
      (constructTransport
        (constructTransport ⟨baseTables, []⟩ ⟨["aes128-ctr"], ["hmac-sha2-256"]⟩)
        ⟨["aes128-ctr"], ["hmac-sha2-256"]⟩) "aes128-ctr" 1 0 ⟨[], []⟩
      (by decide) (by simp [constructTransport]) (by decide)).2.2.2.2.2.2.2.2.1
  · exact (c7_construction_frame baseTables ⟨["aes128-ctr"], ["hmac-sha2-256"]⟩
      ⟨baseTables, [⟨[], []⟩]⟩ "aes128-ctr" 1 0
      ⟨["aes128-ctr", "none"], ["hmac-sha2-256", "none"]⟩
      (by decide) (by decide) (by decide)).2.2.2.2.2.2.2.2.2.1

/-- C8: the demo server's authentication capability accepts method `"none"`
for every username, rejects `"password"` and `"publickey"` for every
username and credential, reports `"none"` as the only available method, and
its channel decision accepts kind `"session"` and administratively prohibits
every other kind. -/
theorem c8_allow_all_server (username password key kind : String) (chanid : Nat) :
    AllowAllServer.check_auth_none username = AUTH_SUCCESSFUL ∧
    AllowAllServer.check_auth_password username password = AUTH_FAILED ∧
    AllowAllServer.check_auth_publickey username key = AUTH_FAILED ∧
    AllowAllServer.get_allowed_auths username = "none" ∧
    (AllowAllServer.check_channel_request kind chanid = OPEN_SUCCEEDED ↔
      kind = "session") ∧
    (AllowAllServer.check_channel_request kind chanid =
        OPEN_FAILED_ADMINISTRATIVELY_PROHIBITED ↔ kind ≠ "session") := by
  refine ⟨rfl, rfl, rfl, rfl, ?_, ?_⟩ <;>
  · unfold AllowAllServer.check_channel_request
      OPEN_SUCCEEDED OPEN_FAILED_ADMINISTRATIVELY_PROHIBITED
    split <;> simp_all

/-- Witness for C8: concrete decisions of the demo server capability. -/
theorem c8_allow_all_server_witness :
    AllowAllServer.check_auth_none "bob" = AUTH_SUCCESSFUL ∧
    AllowAllServer.check_channel_request "exec" 0 =
      OPEN_FAILED_ADMINISTRATIVELY_PROHIBITED :=
  ⟨(c8_allow_all_server "bob" "pw" "key" "exec" 0).1,
   (c8_allow_all_server "bob" "pw" "key" "exec" 0).2.2.2.2.2.mpr (by decide)⟩

/-- C9: whenever the demo client and server have both forced `"none"` first
in their cipher and MAC preference lists, negotiation picks `"none"` for both
categories; the server's channel script sends exactly the hello-world bytes
and exit status 0, and the client's single 1024-byte read after the server's
half-close yields exactly those bytes and that exit status. -/
theorem c9_demo_end_to_end (p q : SessionPrefs) :
    negotiate (forceNoneFirst p).ciphers (forceNoneFirst q).ciphers = some "none" ∧
    negotiate (forceNoneFirst p).macs (forceNoneFirst q).macs = some "none" ∧
    recvChunk 1024 serverChannelScript = helloMessage ∧
    deliveredExit serverChannelScript = some 0 := by
  refine ⟨?_, ?_, by decide, by decide⟩ <;>
    simp [negotiate, forceNoneFirst, List.find?]

/-- C10: in the custom null activation path a compressor is installed for a
direction exactly when that direction's compression constructor is non-null
and either the algorithm is not `"zlib@openssh.com"` or the transport is
already authenticated; in particular compression `"none"` (null constructors)
never installs one, and delayed compression is installed exactly when
authenticated. -/
theorem c10_compression (t : TState)
    (hnone : t.compressionInfo "none" = { hasOut := false, hasIn := false })
    (hzlib : t.compressionInfo "zlib@openssh.com" = { hasOut := true, hasIn := true }) :
    ((customActivateInbound t).any Event.isInCompressor =
      decide ((t.compressionInfo t.remoteCompression).hasIn = true ∧
        (t.remoteCompression ≠ "zlib@openssh.com" ∨ t.authenticated = true))) ∧
    ((customActivateOutbound t).any Event.isOutCompressor =
      decide ((t.compressionInfo t.localCompression).hasOut = true ∧
        (t.localCompression ≠ "zlib@openssh.com" ∨ t.authenticated = true))) ∧
    (t.remoteCompression = "none" →
      (customActivateInbound t).any Event.isInCompressor = false) ∧
    (t.localCompression = "zlib@openssh.com" →
      (customActivateOutbound t).any Event.isOutCompressor = t.authenticated) := by
  have hin : (customActivateInbound t).any Event.isInCompressor =
      decide ((t.compressionInfo t.remoteCompression).hasIn = true ∧
        (t.remoteCompression ≠ "zlib@openssh.com" ∨ t.authenticated = true)) := by
    unfold customActivateInbound
    by_cases h : (t.compressionInfo t.remoteCompression).hasIn = true ∧
        (t.remoteCompression ≠ "zlib@openssh.com" ∨ t.authenticated = true) <;>
      simp [h, List.any_append,
        apply_ite CipherSetup.events, apply_ite MacSetup.events,
        apply_ite (fun l : List Event => l.any Event.isInCompressor),
        Event.isInCompressor]
  have hout : (customActivateOutbound t).any Event.isOutCompressor =
      decide ((t.compressionInfo t.localCompression).hasOut = true ∧
        (t.localCompression ≠ "zlib@openssh.com" ∨ t.authenticated = true)) := by
    unfold customActivateOutbound
    by_cases h : (t.compressionInfo t.localCompression).hasOut = true ∧
        (t.localCompression ≠ "zlib@openssh.com" ∨ t.authenticated = true) <;>
      simp [h, List.any_append,
        apply_ite CipherSetup.events, apply_ite MacSetup.events,
        apply_ite (fun l : List Event => l.any Event.isOutCompressor),
        Event.isOutCompressor]
  refine ⟨hin, hout, fun hr => ?_, fun hl => ?_⟩
  · rw [hin, hr, hnone]
    simp
  · rw [hout, hl, hzlib]
    cases ha : t.authenticated <;> simp [ha]

/-- Witness for C10: delayed compression stays off before authentication on
a concrete state. -/
theorem c10_compression_witness :
    (customActivateOutbound
        (mkState false false false false none
          "none" "none" "none" "none" "none" "zlib@openssh.com")).any
      Event.isOutCompressor = false :=
  (c10_compression
      (mkState false false false false none
        "none" "none" "none" "none" "none" "zlib@openssh.com")
      (by decide) (by decide)).2.2.2 rfl

/-- C2: whenever the custom null path runs for a direction, its externally
observable actions — packetizer configuration (block size, MAC size, ETM/AEAD
flags, key material identified by the standard A-F slot assignment for the
role and direction), compression setup, strict-kex sequence reset, NEWKEYS
send/expect steps and EXT_INFO emission — coincide, in order, with those of
the standard activation sequence; the only difference lies in the pure
`_compute_key` evaluations, and null engines stand exactly where the `"none"`
cipher or MAC is negotiated (a real engine is installed for every other
name).  Neither path touches the channel table. -/
theorem c2_null_path_matches_standard (t : TState)
    (hc : t.cipherInfo "none" = noneCipherInfo)
    (hm : t.macInfo "none" = noneMacInfo)
    (hrmc : t.remoteMac ≠ "none" → (t.macInfo t.remoteMac).hasClass = true)
    (hlmc : t.localMac ≠ "none" → (t.macInfo t.localMac).hasClass = true) :
    (t.remoteCipher = "none" ∨ t.remoteMac = "none" →
      observable (customActivateInbound t) = observable (parentActivateInbound t)) ∧
    (t.localCipher = "none" ∨ t.localMac = "none" →
      observable (customActivateOutbound t) = observable (parentActivateOutbound t)) ∧
    (∀ c ∈ inboundConfigs (customActivateInbound t),
      (c.blockEngine = none ↔ t.remoteCipher = "none") ∧
      (c.macEngine = none ↔
        (t.remoteMac = "none" ∨ (t.cipherInfo t.remoteCipher).isAead = true))) ∧
    (∀ c ∈ outboundConfigs (customActivateOutbound t),
      (c.blockEngine = none ↔ t.localCipher = "none") ∧
      (c.macEngine = none ↔
        (t.localMac = "none" ∨ (t.cipherInfo t.localCipher).isAead = true))) := by
  refine ⟨fun hcond => ?_, fun hcond => ?_, fun c hcmem => ?_, fun c hcmem => ?_⟩
  · unfold customActivateInbound parentActivateInbound
    by_cases hcip : t.remoteCipher = "none"
    · by_cases hmac : t.remoteMac = "none"
      · simp [hcip, hmac, hc, hm, noneCipherInfo, noneMacInfo,
          NoneCipherTransport.getEngine,
          observable_append, observable_ite, observable_nil, observable_compute,
          observable_cons_of_not, Event.isComputeKey,
          apply_ite CipherSetup.events, apply_ite MacSetup.events]
      · simp [hcip, hmac, hc, noneCipherInfo,
          NoneCipherTransport.getEngine,
          observable_append, observable_ite, observable_nil, observable_compute,
          observable_cons_of_not, Event.isComputeKey,
          apply_ite CipherSetup.events, apply_ite MacSetup.events]
    · have hmac : t.remoteMac = "none" := hcond.resolve_left hcip
      simp [hcip, hmac, hm, noneMacInfo,
        NoneCipherTransport.getEngine,
        observable_append, observable_ite, observable_nil, observable_compute,
        observable_cons_of_not, Event.isComputeKey,
        apply_ite CipherSetup.events, apply_ite MacSetup.events,
        apply_ite CipherSetup.iv, apply_ite CipherSetup.engine,
        apply_ite CipherSetup.sdctr]
  · unfold customActivateOutbound parentActivateOutbound
    by_cases hcip : t.localCipher = "none"
    · by_cases hmac : t.localMac = "none"
      · simp [hcip, hmac, hc, hm, noneCipherInfo, noneMacInfo,
          NoneCipherTransport.getEngine, endsWithStr, startsWithChars,
          observable_append, observable_ite, observable_nil, observable_compute,
          observable_cons_of_not, Event.isComputeKey,
          apply_ite CipherSetup.events, apply_ite MacSetup.events]
      · simp [hcip, hmac, hc, noneCipherInfo,
          NoneCipherTransport.getEngine, endsWithStr, startsWithChars,
          observable_append, observable_ite, observable_nil, observable_compute,
          observable_cons_of_not, Event.isComputeKey,
          apply_ite CipherSetup.events, apply_ite MacSetup.events]
    · have hmac : t.localMac = "none" := hcond.resolve_left hcip
      simp [hcip, hmac, hm, noneMacInfo,
        NoneCipherTransport.getEngine,
        observable_append, observable_ite, observable_nil, observable_compute,
        observable_cons_of_not, Event.isComputeKey,
        apply_ite CipherSetup.events, apply_ite MacSetup.events,
        apply_ite CipherSetup.iv, apply_ite CipherSetup.engine,
        apply_ite CipherSetup.sdctr]
  · unfold customActivateInbound at hcmem
    simp [inboundConfigs_append, inboundConfigs_ite, inboundConfigs_nil,
      inboundConfigs_cons_cfg, inboundConfigs_cons_of_not, Event.isSetInCipher,
      apply_ite CipherSetup.events, apply_ite MacSetup.events] at hcmem
    subst hcmem
    constructor
    · by_cases hcip : t.remoteCipher = "none" <;>
        simp [hcip, NoneCipherTransport.getEngine,
          apply_ite CipherSetup.engine]
    · by_cases hbr : t.remoteMac ≠ "none" ∧ (t.cipherInfo t.remoteCipher).isAead = false
      · have hclass := hrmc hbr.1
        simp [hbr, hclass, apply_ite MacSetup.macEngine, hbr.1, hbr.2]
      · rcases not_and_or.mp hbr with h | h
        · have hmac : t.remoteMac = "none" := not_not.mp h
          simp [hbr, apply_ite MacSetup.macEngine, hmac]
        · have haead : (t.cipherInfo t.remoteCipher).isAead = true := by
            cases hb : (t.cipherInfo t.remoteCipher).isAead
            · exact absurd hb h
            · rfl
          simp [hbr, apply_ite MacSetup.macEngine, haead]
  · unfold customActivateOutbound at hcmem
    simp [outboundConfigs_append, outboundConfigs_ite, outboundConfigs_nil,
      outboundConfigs_cons_cfg, outboundConfigs_cons_of_not, Event.isSetOutCipher,
      apply_ite CipherSetup.events, apply_ite MacSetup.events] at hcmem
    subst hcmem
    constructor
    · by_cases hcip : t.localCipher = "none" <;>
        simp [hcip, NoneCipherTransport.getEngine,
          apply_ite CipherSetup.engine]
    · by_cases hbr : t.localMac ≠ "none" ∧ (t.cipherInfo t.localCipher).isAead = false
      · have hclass := hlmc hbr.1
        simp [hbr, hclass, apply_ite MacSetup.macEngine, hbr.1, hbr.2]
      · rcases not_and_or.mp hbr with h | h
        · have hmac : t.localMac = "none" := not_not.mp h
          simp [hbr, apply_ite MacSetup.macEngine, hmac]
        · have haead : (t.cipherInfo t.localCipher).isAead = true := by
            cases hb : (t.cipherInfo t.localCipher).isAead
            · exact absurd hb h
            · rfl
          simp [hbr, apply_ite MacSetup.macEngine, haead]

/-- Witness for C2: the custom and spec-modelled standard inbound activations
agree observably at a concrete null-cipher state, and the installed engines
are null exactly for the `"none"` names there. -/
theorem c2_null_path_matches_standard_witness :
    observable (customActivateInbound c3State) =
      observable (parentActivateInbound c3State) ∧
    ∀ c ∈ inboundConfigs (customActivateInbound c3State),
      (c.blockEngine = none ↔ c3State.remoteCipher = "none") ∧
      (c.macEngine = none ↔
        (c3State.remoteMac = "none" ∨
          (c3State.cipherInfo c3State.remoteCipher).isAead = true)) :=
  ⟨(c2_null_path_matches_standard c3State (by decide) (by decide)
      (fun _ => by decide) (fun h => absurd rfl h)).1 (Or.inl rfl),
   (c2_null_path_matches_standard c3State (by decide) (by decide)
      (fun _ => by decide) (fun h => absurd rfl h)).2.2.1⟩

end NoneCipher
